import Mathlib

/-!
# Verification of the admission-control and caching core of `api-stack`

Shallow embedding of the rate limiter (`app/services/ratelimit.py`), the
cache layer (`app/services/cache.py`) and the relevant configuration
surface (`app/core/config.py`), together with proofs of the spec claims.

The external Redis store is modelled as explicit state: integer counters
with optional absolute expiry times for the rate limiter, and an entry
list with expiry times for the cache.  Time is an explicit `Nat`
parameter `now`; a key whose expiry time is `≤ now` is gone.
-/

namespace ApiStack

/-- The configuration fields consumed by the core
(`app/core/config.py`, class `Settings`). -/
structure Settings where
  RATE_LIMIT_ENABLED : Bool
  RATE_LIMIT_REQUESTS : Nat
  RATE_LIMIT_WINDOW_SECONDS : Nat
  CACHE_ENABLED : Bool
  CACHE_EXPIRE_SECONDS : Nat
deriving Repr, DecidableEq

/-- The defaults declared in `app/core/config.py`:
`RATE_LIMIT_ENABLED = True`, `RATE_LIMIT_REQUESTS = 100`,
`RATE_LIMIT_WINDOW_SECONDS = 60`, `CACHE_ENABLED = True`,
`CACHE_EXPIRE_SECONDS = 300`. -/
def defaultSettings : Settings :=
  { RATE_LIMIT_ENABLED := true
    RATE_LIMIT_REQUESTS := 100
    RATE_LIMIT_WINDOW_SECONDS := 60
    CACHE_ENABLED := true
    CACHE_EXPIRE_SECONDS := 300 }

/-- Python's `x or default` fallback on an optional integer argument:
`None` and `0` are falsy, so both fall back to the default. -/
def orDefault (v : Option Nat) (d : Nat) : Nat :=
  match v with
  | none => d
  | some 0 => d
  | some (n + 1) => n + 1

/-- Pointwise update of a key-indexed map, used for store writes. -/
def setKey (f : String → Option Nat) (k : String) (v : Option Nat) :
    String → Option Nat :=
  fun k2 => if k2 = k then v else f k2

/-- The slice of the Redis store used by the rate limiter: each key holds
an integer counter (`counters`) and an optional absolute expiry time
(`expireAt`); `none` means the key has no TTL. -/
structure RedisStore where
  counters : String → Option Nat
  expireAt : String → Option Nat

/-- The store with no keys. -/
def RedisStore.empty : RedisStore :=
  { counters := fun _ => none, expireAt := fun _ => none }

/-- The value visible at time `now`: a key whose expiry time has been
reached counts as absent (Redis expiry semantics). -/
def RedisStore.live (s : RedisStore) (k : String) (now : Nat) : Option Nat :=
  match s.counters k with
  | none => none
  | some v =>
    match s.expireAt k with
    | none => some v
    | some e => if now < e then some v else none

/-- Redis `INCR`: an absent (or expired) key is treated as `0` and
becomes `1` with no TTL; a present key is incremented in place, keeping
its TTL.  Returns the new value and the new store. -/
def RedisStore.incr (s : RedisStore) (k : String) (now : Nat) : Nat × RedisStore :=
  match s.live k now with
  | some v =>
    (v + 1, { s with counters := setKey s.counters k (some (v + 1)) })
  | none =>
    (1, { counters := setKey s.counters k (some 1)
          expireAt := setKey s.expireAt k none })

/-- Redis `TTL`: `-2` if the key is absent, `-1` if present without
expiry, else the remaining seconds. -/
def RedisStore.ttl (s : RedisStore) (k : String) (now : Nat) : Int :=
  match s.live k now with
  | none => -2
  | some _ =>
    match s.expireAt k with
    | none => -1
    | some e => (e : Int) - (now : Int)

/-- Redis `EXPIRE key secs`: sets the expiry of a present key to
`now + secs`; a no-op on an absent key. -/
def RedisStore.expire (s : RedisStore) (k : String) (secs : Nat) (now : Nat) :
    RedisStore :=
  match s.live k now with
  | none => s
  | some _ => { s with expireAt := setKey s.expireAt k (some (now + secs)) }

/-- Redis `DELETE`. -/
def RedisStore.del (s : RedisStore) (k : String) : RedisStore :=
  { counters := setKey s.counters k none
    expireAt := setKey s.expireAt k none }

/-- The `RateLimiter` instance state (`app/services/ratelimit.py`). -/
structure RateLimiter where
  redisPfx : String
  requests : Nat
  window_seconds : Nat
deriving Repr, DecidableEq

/-- Constructor `RateLimiter.__init__`: `requests or settings.RATE_LIMIT_REQUESTS`
and `window_seconds or settings.RATE_LIMIT_WINDOW_SECONDS` — a Python
falsy-or, so `None` and `0` both fall back to the global defaults. -/
def RateLimiter.init (st : Settings) (redisPfx : String)
    (requests window_seconds : Option Nat) : RateLimiter :=
  { redisPfx := redisPfx
    requests := orDefault requests st.RATE_LIMIT_REQUESTS
    window_seconds := orDefault window_seconds st.RATE_LIMIT_WINDOW_SECONDS }

/-- Operation `RateLimiter.is_rate_limited`: if rate limiting is disabled, return
`(False, 0, requests)` without touching the store; otherwise `INCR` the
key, read its `TTL`, set the expiry to `window_seconds` when the TTL is
negative (the key was just created), and report
`is_limited = count > requests` together with `count` and the limit. -/
def RateLimiter.is_rate_limited (rl : RateLimiter) (st : Settings) (key : String)
    (now : Nat) (s : RedisStore) : (Bool × Nat × Nat) × RedisStore :=
  if !st.RATE_LIMIT_ENABLED then
    ((false, 0, rl.requests), s)
  else
    let redis_key := rl.redisPfx ++ key
    let cs := s.incr redis_key now
    let count := cs.1
    let s1 := cs.2
    let ttl := s1.ttl redis_key now
    let s2 := if ttl < 0 then s1.expire redis_key rl.window_seconds now else s1
    ((decide (count > rl.requests), count, rl.requests), s2)

/-- Operation `RateLimiter.reset`: delete the counter key outright. -/
def RateLimiter.reset (rl : RateLimiter) (key : String) (s : RedisStore) :
    RedisStore :=
  s.del (rl.redisPfx ++ key)

/-- A sequence of `is_rate_limited` calls for the same client key at the
given times, threading the store; returns the list of results. -/
def checkSeq (rl : RateLimiter) (st : Settings) (key : String) (ts : List Nat)
    (s : RedisStore) : List (Bool × Nat × Nat) × RedisStore :=
  match ts with
  | [] => ([], s)
  | t :: rest =>
    let r := rl.is_rate_limited st key t s
    let tail := checkSeq rl st key rest r.2
    (r.1 :: tail.1, tail.2)

/-- The state of the store while talking to it: `up` answers requests,
`down` makes every round-trip raise a connection error. -/
inductive StoreHealth where
  | up
  | down
deriving Repr, DecidableEq

/-- Store-failure taxonomy relevant to the checks. -/
inductive StoreFault where
  | storeUnavailable
deriving Repr, DecidableEq

/-- Operation `RateLimiter.is_rate_limited` with the store's availability made
explicit: the source wraps none of its Redis round-trips
(`pipe.execute()`, `client.expire`) in a handler, so a connection
failure propagates out of the coroutine unhandled, modelled as
`Except.error`. -/
def RateLimiter.is_rate_limited_f (rl : RateLimiter) (st : Settings)
    (health : StoreHealth) (key : String) (now : Nat) (s : RedisStore) :
    Except StoreFault ((Bool × Nat × Nat) × RedisStore) :=
  if !st.RATE_LIMIT_ENABLED then
    .ok ((false, 0, rl.requests), s)
  else
    match health with
    | .down => .error .storeUnavailable
    | .up => .ok (rl.is_rate_limited st key now s)

/-- The response-header state set by the `_rate_limit` dependency. -/
structure ResponseHeaders where
  xRateLimitLimit : Option String
  xRateLimitRemaining : Option String
deriving Repr, DecidableEq

/-- A raised `HTTPException`. -/
structure HTTPError where
  status_code : Nat
  detail : String
deriving Repr, DecidableEq

/-- The `_rate_limit` dependency produced by `rate_limit(...)`: build a
limiter from the optional per-site arguments, return untouched when rate
limiting is disabled, otherwise run the check, set
`X-RateLimit-Limit = limit` and
`X-RateLimit-Remaining = max(0, limit - current)` on the response, and
raise HTTP 429 when limited.  The client key (by default the client
address) is passed in already extracted from the request. -/
def rate_limit_dep (requests window_seconds : Option Nat) (st : Settings)
    (key : String) (now : Nat) (s : RedisStore) :
    (ResponseHeaders × Option HTTPError) × RedisStore :=
  if !st.RATE_LIMIT_ENABLED then
    (({ xRateLimitLimit := none, xRateLimitRemaining := none }, none), s)
  else
    let limiter := RateLimiter.init st "ratelimit:" requests window_seconds
    let r := limiter.is_rate_limited st key now s
    let is_limited := r.1.1
    let current := r.1.2.1
    let limit := r.1.2.2
    let headers : ResponseHeaders :=
      { xRateLimitLimit := some (toString limit)
        xRateLimitRemaining := some (toString (max 0 ((limit : Int) - (current : Int)))) }
    ((headers,
      if is_limited then
        some { status_code := 429, detail := "Rate limit exceeded" }
      else none), r.2)

/-! ## Cache layer (`app/services/cache.py`) -/

/-- Redis glob matching on character lists, as used by `KEYS pattern`:
`*` matches any (possibly empty) run of characters, every other
character matches itself.  The first argument is fuel making the
recursion structural; every step shrinks pattern-plus-subject, so
`pattern.length + subject.length + 1` units always suffice. -/
def globChars : Nat → List Char → List Char → Bool
  | 0, _, _ => false
  | _ + 1, [], [] => true
  | _ + 1, [], _ :: _ => false
  | f + 1, p :: ps, [] => p == '*' && globChars f ps []
  | f + 1, p :: ps, c :: cs =>
    if p == '*' then globChars f ps (c :: cs) || globChars f (p :: ps) cs
    else p == c && globChars f ps cs

/-- Glob matching on strings. -/
def globMatch (pattern s : String) : Bool :=
  globChars (pattern.toList.length + s.toList.length + 1) pattern.toList s.toList

/-- One serialized cache entry in the store: the full Redis key, the
serialized value, and the absolute expiry time. -/
structure CacheEntry where
  key : String
  val : String
  expAt : Nat
deriving Repr, DecidableEq

/-- The slice of the Redis store used by the cache layer. -/
structure CacheStore where
  entries : List CacheEntry
deriving Repr, DecidableEq

/-- The cache store with no entries. -/
def CacheStore.empty : CacheStore := { entries := [] }

/-- Redis `GET` at time `now`: an entry whose expiry has been reached is
absent. -/
def CacheStore.get (cs : CacheStore) (k : String) (now : Nat) : Option String :=
  match cs.entries.find? (fun e => e.key == k && decide (now < e.expAt)) with
  | some e => some e.val
  | none => none

/-- Redis `SET` with TTL: overwrites any previous entry for the key. -/
def CacheStore.set (cs : CacheStore) (k v : String) (ttl : Nat) (now : Nat) :
    CacheStore :=
  { entries := ⟨k, v, now + ttl⟩ :: cs.entries.filter (fun e => e.key ≠ k) }

/-- Redis `KEYS pattern` followed by `DELETE` of every match: the net
effect is to drop every entry whose key matches the glob pattern. -/
def CacheStore.deleteMatching (cs : CacheStore) (pattern : String) : CacheStore :=
  { entries := cs.entries.filter (fun e => !globMatch pattern e.key) }

/-- Modelled from the spec: the cache key layout
`<cache-prefix><namespace>:<operation-signature>` (spec §3, CacheEntry),
produced by the external cache library's key builder, which is not part
of this repository's source.  The key builder inserts a `":"` between
the configured prefix string and the namespace — the same
`prefix + ":" + …` shape `clear_cache_by_pattern` uses for its scan
pattern — so the effective cache-prefix of the spec is the configured
prefix followed by `":"`. -/
def cacheKey (cachePfx ns sig : String) : String :=
  cachePfx ++ ":" ++ ns ++ ":" ++ sig

/-- Modelled from the spec: steps 2–5 of `getOrCompute` (spec §4.2) as
performed by the external `fastapi_cache.decorator.cache` wrapper, which
is not part of this repository's source — look the key up; on a hit,
deserialize and return the stored value without invoking `compute`; on a
miss, invoke `compute`, serialize and store the result under the given
TTL, and return it.  The middle component counts how many times
`compute` ran. -/
def cacheGetOrCompute {β : Type} (key : String) (ttl : Nat)
    (serialize : β → String) (deserialize : String → β) (compute : β)
    (now : Nat) (cs : CacheStore) : β × Nat × CacheStore :=
  match cs.get key now with
  | some v => (deserialize v, 0, cs)
  | none => (compute, 1, cs.set key (serialize compute) ttl now)

/-- The `cached(...)` decorator applied to one call
(`app/services/cache.py`, `cached`): when `CACHE_ENABLED` is false the
decorator returns the raw function, so `compute` runs directly; when the
backend was never initialized (`FastAPICache.get_backend() is None`) the
wrapper also calls `compute` directly; otherwise it delegates to the
library's get-or-compute with TTL `expire or settings.CACHE_EXPIRE_SECONDS`.
The final cache key is passed in already built. -/
def cached_call {β : Type} (st : Settings) (backendReady : Bool)
    (expire : Option Nat) (key : String) (serialize : β → String)
    (deserialize : String → β) (compute : β) (now : Nat) (cs : CacheStore) :
    β × Nat × CacheStore :=
  if !st.CACHE_ENABLED then (compute, 1, cs)
  else if !backendReady then (compute, 1, cs)
  else
    cacheGetOrCompute key (orDefault expire st.CACHE_EXPIRE_SECONDS)
      serialize deserialize compute now cs

/-- Operation `clear_cache_by_pattern(pattern)` (`app/services/cache.py`): a no-op
when caching is disabled or no Redis client exists; otherwise it deletes
every key matching `FastAPICache.get_prefix() + ":" + pattern`. -/
def clear_cache_by_pattern (st : Settings) (clientReady : Bool)
    (cachePfx pattern : String) (cs : CacheStore) : CacheStore :=
  if !st.CACHE_ENABLED || !clientReady then cs
  else cs.deleteMatching (cachePfx ++ ":" ++ pattern)

/-- The cache-prefix string configured in `setup_cache`
(`FastAPICache.init(..., prefix="fastapi-cache:")`); the library's key
builder then inserts a further `":"` between this prefix and the
namespace, matching `clear_cache_by_pattern`'s `f"{prefix}:{pattern}"`. -/
def fastapiCachePfx : String := "fastapi-cache:"

/-- The pattern every Item write path (`ItemService.create` / `update` /
`delete` in `app/api/v1/items/service.py`) passes to
`clear_cache_by_pattern` after committing. -/
def itemsInvalidationPattern : String := "items:*"

/-- The result list a window of consecutive checks should produce when
the counter already stands at `c`: counts `c + 1, c + 2, …`, each
limited exactly when it exceeds the budget. -/
def expectedFrom (req c : Nat) : Nat → List (Bool × Nat × Nat)
  | 0 => []
  | n + 1 => (decide (c + 1 > req), c + 1, req) :: expectedFrom req (c + 1) n

/-! ## Concrete fixtures used by the witnesses -/

/-- A limiter with budget 3 and a 60-second window, as in the spec's
concrete scenario (`requests=3, window_seconds=60`). -/
def rlEx : RateLimiter :=
  RateLimiter.init defaultSettings "ratelimit:" (some 3) (some 60)

/-- The default settings with rate limiting turned off. -/
def disabledSettings : Settings :=
  { defaultSettings with RATE_LIMIT_ENABLED := false }

/-- The default settings with caching turned off. -/
def cacheOffSettings : Settings :=
  { defaultSettings with CACHE_ENABLED := false }

/-- A store in which client `"k"` of the `"ratelimit:"` namespace has 2
requests on the clock and a window expiring at time 60. -/
def sEx : RedisStore :=
  { counters := setKey (fun _ => none) "ratelimit:k" (some 2)
    expireAt := setKey (fun _ => none) "ratelimit:k" (some 60) }

/-- A cache store holding one live entry under the items namespace. -/
def csEx : CacheStore :=
  { entries := [{ key := cacheKey fastapiCachePfx "items" "5", val := "stale", expAt := 1000 }] }

/-! ## Basic lemmas -/

@[simp] theorem setKey_same (f : String → Option Nat) (k : String) (v : Option Nat) :
    setKey f k v k = v := by
  simp [setKey]

theorem setKey_other (f : String → Option Nat) (k k2 : String) (v : Option Nat)
    (h : k2 ≠ k) : setKey f k v k2 = f k2 := by
  simp [setKey, h]

/-! ## Step lemmas for the rate limiter -/

/-- A check on a key that is absent (or expired) at time `now`: the
counter becomes `1`, the TTL is freshly set to `window_seconds`, and the
call reports count `1`. -/
theorem is_rate_limited_fresh (rl : RateLimiter) (st : Settings) (key : String)
    (now : Nat) (s : RedisStore)
    (hen : st.RATE_LIMIT_ENABLED = true)
    (hdead : s.live (rl.redisPfx ++ key) now = none) :
    (rl.is_rate_limited st key now s).1 =
        (decide (1 > rl.requests), 1, rl.requests) ∧
    (rl.is_rate_limited st key now s).2.counters (rl.redisPfx ++ key) = some 1 ∧
    (rl.is_rate_limited st key now s).2.expireAt (rl.redisPfx ++ key) =
      some (now + rl.window_seconds) := by
  have hincr : s.incr (rl.redisPfx ++ key) now =
      (1, { counters := setKey s.counters (rl.redisPfx ++ key) (some 1)
            expireAt := setKey s.expireAt (rl.redisPfx ++ key) none }) := by
    unfold RedisStore.incr
    rw [hdead]
  unfold RateLimiter.is_rate_limited
  simp only [hen, Bool.not_true, Bool.false_eq_true, if_false, hincr]
  simp [RedisStore.ttl, RedisStore.live, RedisStore.expire, setKey]

/-- A check on a key that is present with count `c` and expiry time `e`
still in the future: the counter becomes `c + 1` and the expiry time is
left untouched (the TTL is non-negative, so `EXPIRE` is not called). -/
theorem is_rate_limited_counting (rl : RateLimiter) (st : Settings) (key : String)
    (now c e : Nat) (s : RedisStore)
    (hen : st.RATE_LIMIT_ENABLED = true)
    (hc : s.counters (rl.redisPfx ++ key) = some c)
    (he : s.expireAt (rl.redisPfx ++ key) = some e)
    (hnow : now < e) :
    (rl.is_rate_limited st key now s).1 =
        (decide (c + 1 > rl.requests), c + 1, rl.requests) ∧
    (rl.is_rate_limited st key now s).2.counters (rl.redisPfx ++ key) =
        some (c + 1) ∧
    (rl.is_rate_limited st key now s).2.expireAt (rl.redisPfx ++ key) = some e := by
  have hlive : s.live (rl.redisPfx ++ key) now = some c := by
    unfold RedisStore.live
    rw [hc, he]
    simp [hnow]
  have hincr : s.incr (rl.redisPfx ++ key) now =
      (c + 1, { s with counters := setKey s.counters (rl.redisPfx ++ key) (some (c + 1)) }) := by
    unfold RedisStore.incr
    rw [hlive]
  have httl : ¬ ((e : Int) - (now : Int) < 0) := by omega
  unfold RateLimiter.is_rate_limited
  simp only [hen, Bool.not_true, Bool.false_eq_true, if_false, hincr]
  simp [RedisStore.ttl, RedisStore.live, he, hnow, httl, setKey]

/-- Consecutive checks on a counter that stays within its window count
up one by one. -/
theorem checkSeq_counting (rl : RateLimiter) (st : Settings) (key : String)
    (hen : st.RATE_LIMIT_ENABLED = true) (e : Nat) :
    ∀ (ts : List Nat) (c : Nat) (s : RedisStore),
      s.counters (rl.redisPfx ++ key) = some c →
      s.expireAt (rl.redisPfx ++ key) = some e →
      (∀ t ∈ ts, t < e) →
      (checkSeq rl st key ts s).1 = expectedFrom rl.requests c ts.length := by
  intro ts
  induction ts with
  | nil =>
    intro c s _ _ _
    simp [checkSeq, expectedFrom]
  | cons t rest ih =>
    intro c s hc he hts
    have hstep := is_rate_limited_counting rl st key t c e s hen hc he
      (hts t (List.mem_cons_self t rest))
    have htail := ih (c + 1) (rl.is_rate_limited st key t s).2 hstep.2.1 hstep.2.2
      (fun t2 ht2 => hts t2 (List.mem_cons_of_mem t ht2))
    simp only [checkSeq, List.length_cons, expectedFrom]
    rw [hstep.1, htail]

/-- The `i`-th element of `expectedFrom`. -/
theorem expectedFrom_getElem (req : Nat) :
    ∀ (n c i : Nat), i < n →
      (expectedFrom req c n)[i]? =
        some (decide (c + i + 1 > req), c + i + 1, req) := by
  intro n
  induction n with
  | zero =>
    intro c i hi
    omega
  | succ n ih =>
    intro c i hi
    cases i with
    | zero =>
      simp [expectedFrom]
    | succ i =>
      have h2 := ih (c + 1) i (by omega)
      have hidx : c + 1 + i + 1 = c + (i + 1) + 1 := by omega
      rw [← hidx]
      simpa [expectedFrom] using h2

/-! ## Claim theorems: rate limiter -/

/-- C1: Fixed-window admission.  With rate limiting enabled, starting
from an absent counter, the `i`-th consecutive check (0-based index `i`,
so the claim's `i`-th call is index `i - 1`) for the same client key
within one window returns `currentCount = i + 1`, and the call is
allowed (`is_limited = false`) exactly when `i + 1 ≤ requests` — every
call increments the counter, rejected ones included.  After the key
expires (its live view is `none`), the next check counts `1` again. -/
theorem fixed_window_admission (rl : RateLimiter) (st : Settings) (key : String)
    (t0 : Nat) (rest : List Nat) (i : Nat)
    (hen : st.RATE_LIMIT_ENABLED = true)
    (hwin : ∀ t ∈ rest, t < t0 + rl.window_seconds)
    (hi : i < (t0 :: rest).length) :
    ((checkSeq rl st key (t0 :: rest) RedisStore.empty).1[i]? =
      some (decide (i + 1 > rl.requests), i + 1, rl.requests)) ∧
    (decide (i + 1 > rl.requests) = false ↔ i + 1 ≤ rl.requests) ∧
    (∀ (s : RedisStore) (t : Nat), s.live (rl.redisPfx ++ key) t = none →
      (rl.is_rate_limited st key t s).1.2.1 = 1) := by
  refine ⟨?_, ?_, ?_⟩
  · have hdead : RedisStore.empty.live (rl.redisPfx ++ key) t0 = none := rfl
    have hfresh := is_rate_limited_fresh rl st key t0 RedisStore.empty hen hdead
    have hrest := checkSeq_counting rl st key hen (t0 + rl.window_seconds) rest 1
      (rl.is_rate_limited st key t0 RedisStore.empty).2 hfresh.2.1 hfresh.2.2 hwin
    have hlist : (checkSeq rl st key (t0 :: rest) RedisStore.empty).1 =
        expectedFrom rl.requests 0 (rest.length + 1) := by
      simp only [checkSeq]
      rw [hfresh.1, hrest]
      simp [expectedFrom]
    rw [hlist]
    have hg := expectedFrom_getElem rl.requests (rest.length + 1) 0 i (by simpa using hi)
    simpa using hg
  · simp [Nat.not_lt]
  · intro s t hd
    have h := (is_rate_limited_fresh rl st key t s hen hd).1
    rw [h]

/-- Witness for C1: the spec's concrete scenario, `requests=3`,
`window_seconds=60`, calls at `t = 0, 1, 2, 3`: the fourth call is
rejected with count 4, and a call at `t = 61` (after expiry) counts 1. -/
theorem fixed_window_admission_witness :
    defaultSettings.RATE_LIMIT_ENABLED = true ∧
    ((checkSeq rlEx defaultSettings "1.2.3.4" (0 :: [1, 2, 3]) RedisStore.empty).1[3]? =
      some (true, 4, 3)) ∧
    (rlEx.is_rate_limited defaultSettings "1.2.3.4" 61
      (checkSeq rlEx defaultSettings "1.2.3.4" (0 :: [1, 2, 3]) RedisStore.empty).2).1.2.1 = 1 := by
  have h := fixed_window_admission rlEx defaultSettings "1.2.3.4" 0 [1, 2, 3] 3
    (by decide) (by decide) (by decide)
  refine ⟨by decide, ?_, ?_⟩
  · rw [h.1]
    decide
  · exact h.2.2 _ 61 (by decide)

/-- C4: the counter's TTL is set exactly once per window.  A check that
finds the key live with expiry time `e` still in the future leaves the
expiry time exactly `e` (never reset or extended) and moves the count
from `c` to `c + 1` (never decremented); and the check that creates the
counter (here: from the empty store) is the one that sets the TTL, to
`window_seconds` from its own time. -/
theorem ttl_set_once (rl : RateLimiter) (st : Settings) (key : String)
    (now c e : Nat) (s : RedisStore)
    (hen : st.RATE_LIMIT_ENABLED = true)
    (hc : s.counters (rl.redisPfx ++ key) = some c)
    (he : s.expireAt (rl.redisPfx ++ key) = some e)
    (hnow : now < e) :
    ((rl.is_rate_limited st key now s).2.expireAt (rl.redisPfx ++ key) = some e ∧
     (rl.is_rate_limited st key now s).2.counters (rl.redisPfx ++ key) = some (c + 1)) ∧
    (rl.is_rate_limited st key now RedisStore.empty).2.expireAt (rl.redisPfx ++ key) =
      some (now + rl.window_seconds) := by
  have hstep := is_rate_limited_counting rl st key now c e s hen hc he hnow
  refine ⟨⟨hstep.2.2, hstep.2.1⟩, ?_⟩
  exact (is_rate_limited_fresh rl st key now RedisStore.empty hen rfl).2.2

/-- Witness for C4: client `"k"` stands at count 2 with expiry time 60;
a check at `t = 5` keeps the expiry time 60 and moves the count to 3. -/
theorem ttl_set_once_witness :
    defaultSettings.RATE_LIMIT_ENABLED = true ∧
    (((rlEx.is_rate_limited defaultSettings "k" 5 sEx).2.expireAt "ratelimit:k" = some 60 ∧
      (rlEx.is_rate_limited defaultSettings "k" 5 sEx).2.counters "ratelimit:k" = some 3) ∧
     (rlEx.is_rate_limited defaultSettings "k" 5 RedisStore.empty).2.expireAt "ratelimit:k" =
       some 65) := by
  exact ⟨by decide,
    ttl_set_once rlEx defaultSettings "k" 5 2 60 sEx (by decide) (by decide) (by decide) (by decide)⟩

/-- C7: with rate limiting globally disabled, a check reports
"not limited" (allowed) with count 0 and returns the store unchanged —
no key is created, incremented, or given a TTL — and the `_rate_limit`
dependency returns before the check, setting no headers and raising
nothing. -/
theorem disabled_check_no_store_touch (rl : RateLimiter) (st : Settings)
    (requests window_seconds : Option Nat) (key : String) (now : Nat) (s : RedisStore)
    (hdis : st.RATE_LIMIT_ENABLED = false) :
    rl.is_rate_limited st key now s = ((false, 0, rl.requests), s) ∧
    rate_limit_dep requests window_seconds st key now s =
      (({ xRateLimitLimit := none, xRateLimitRemaining := none }, none), s) := by
  constructor
  · unfold RateLimiter.is_rate_limited
    rw [hdis]
    rfl
  · unfold rate_limit_dep
    rw [hdis]
    rfl

/-- Witness for C7: with `RATE_LIMIT_ENABLED = false`, a check on the
empty store is allowed and the store stays empty. -/
theorem disabled_check_no_store_touch_witness :
    disabledSettings.RATE_LIMIT_ENABLED = false ∧
    (rlEx.is_rate_limited disabledSettings "k" 0 RedisStore.empty =
       ((false, 0, rlEx.requests), RedisStore.empty) ∧
     rate_limit_dep (some 3) (some 60) disabledSettings "k" 0 RedisStore.empty =
       (({ xRateLimitLimit := none, xRateLimitRemaining := none }, none), RedisStore.empty)) := by
  exact ⟨by decide,
    disabled_check_no_store_touch rlEx disabledSettings (some 3) (some 60) "k" 0
      RedisStore.empty (by decide)⟩

/-- Counterexample to C5 as stated: with rate limiting enabled and the
store down, the check does not resolve to any allowed/denied decision —
the connection fault comes back as an error to the caller. -/
theorem store_fault_propagates_cex :
    rlEx.is_rate_limited_f defaultSettings .down "k" 0 RedisStore.empty =
      .error .storeUnavailable := by
  rfl

/-- C5 (amended): if the store is unreachable during a check with rate
limiting enabled, the source handles nothing — the `StoreUnavailable`
fault propagates out of `is_rate_limited` unhandled; no fail-open or
fail-closed policy exists in the code. -/
theorem store_fault_propagates (rl : RateLimiter) (st : Settings) (key : String)
    (now : Nat) (s : RedisStore)
    (hen : st.RATE_LIMIT_ENABLED = true) :
    rl.is_rate_limited_f st .down key now s = .error .storeUnavailable := by
  unfold RateLimiter.is_rate_limited_f
  rw [hen]
  rfl

/-- Witness for C5 (amended): concrete instance of the propagation. -/
theorem store_fault_propagates_witness :
    defaultSettings.RATE_LIMIT_ENABLED = true ∧
    rlEx.is_rate_limited_f defaultSettings .down "c" 7 sEx = .error .storeUnavailable := by
  exact ⟨by decide, store_fault_propagates rlEx defaultSettings "c" 7 sEx (by decide)⟩

/-- Counterexample to C6 as stated: constructing a limiter with
`requests = 0` and `window_seconds = 0` is not rejected — it yields a
normal limiter carrying the global defaults (100 requests / 60 s), and
its first check admits the request instead of rejecting all. -/
theorem zero_config_not_rejected_cex :
    RateLimiter.init defaultSettings "ratelimit:" (some 0) (some 0) =
      { redisPfx := "ratelimit:", requests := 100, window_seconds := 60 } ∧
    ((RateLimiter.init defaultSettings "ratelimit:" (some 0) (some 0)).is_rate_limited
      defaultSettings "k" 0 RedisStore.empty).1.1 = false := by
  exact ⟨by decide, by decide⟩

/-- C6 (amended): a `requests` or `window_seconds` of zero (or `None`)
is not validated at construction: the falsy-or fallback in
`RateLimiter.__init__` silently substitutes the global defaults, so the
resulting limiter equals the default-configured one; no
`InvalidConfiguration` exists and startup is not aborted. -/
theorem zero_config_falls_back (st : Settings) (p : String)
    (requests window_seconds : Option Nat)
    (hr : requests = none ∨ requests = some 0)
    (hw : window_seconds = none ∨ window_seconds = some 0) :
    RateLimiter.init st p requests window_seconds =
      { redisPfx := p, requests := st.RATE_LIMIT_REQUESTS,
        window_seconds := st.RATE_LIMIT_WINDOW_SECONDS } := by
  rcases hr with hr | hr <;> rcases hw with hw | hw <;>
    simp [RateLimiter.init, orDefault, hr, hw]

/-- Witness for C6 (amended): the zero/zero limiter is the default one. -/
theorem zero_config_falls_back_witness :
    ((some 0 : Option Nat) = none ∨ (some 0 : Option Nat) = some 0) ∧
    RateLimiter.init defaultSettings "ratelimit:" (some 0) (some 0) =
      { redisPfx := "ratelimit:",
        requests := defaultSettings.RATE_LIMIT_REQUESTS,
        window_seconds := defaultSettings.RATE_LIMIT_WINDOW_SECONDS } := by
  exact ⟨Or.inr rfl,
    zero_config_falls_back defaultSettings "ratelimit:" (some 0) (some 0)
      (Or.inr rfl) (Or.inr rfl)⟩

/-- C10: the constructor's falsy-or fallback makes `requests = 0` or
`None` (and likewise `window_seconds`) silently substitute the global
defaults — field for field, the instance carries
`settings.RATE_LIMIT_REQUESTS` and `settings.RATE_LIMIT_WINDOW_SECONDS`,
so a zero per-site budget behaves as the default budget, not as
reject-all. -/
theorem zero_config_is_default_budget (st : Settings) (p : String)
    (requests window_seconds : Option Nat)
    (hr : requests = none ∨ requests = some 0)
    (hw : window_seconds = none ∨ window_seconds = some 0) :
    (RateLimiter.init st p requests window_seconds).requests =
        st.RATE_LIMIT_REQUESTS ∧
    (RateLimiter.init st p requests window_seconds).window_seconds =
        st.RATE_LIMIT_WINDOW_SECONDS ∧
    RateLimiter.init st p requests window_seconds = RateLimiter.init st p none none := by
  rcases hr with hr | hr <;> rcases hw with hw | hw <;>
    simp [RateLimiter.init, orDefault, hr, hw]

/-- Witness for C10: zero budget and window give the default instance. -/
theorem zero_config_is_default_budget_witness :
    ((some 0 : Option Nat) = none ∨ (some 0 : Option Nat) = some 0) ∧
    ((RateLimiter.init defaultSettings "ratelimit:" (some 0) (some 0)).requests = 100 ∧
     (RateLimiter.init defaultSettings "ratelimit:" (some 0) (some 0)).window_seconds = 60 ∧
     RateLimiter.init defaultSettings "ratelimit:" (some 0) (some 0) =
       RateLimiter.init defaultSettings "ratelimit:" none none) := by
  exact ⟨Or.inr rfl,
    zero_config_is_default_budget defaultSettings "ratelimit:" (some 0) (some 0)
      (Or.inr rfl) (Or.inr rfl)⟩

/-- C9: with rate limiting enabled, the `_rate_limit` dependency sets
`X-RateLimit-Limit` to the configured budget and `X-RateLimit-Remaining`
to `max(0, limit - currentCount)` on the response — on every check,
rejected ones included — and raises HTTP 429 exactly when the check
reports the key limited, so a rejection is surfaced as a 429 with both
headers already set on the response. -/
theorem rate_limit_headers (requests window_seconds : Option Nat) (st : Settings)
    (key : String) (now : Nat) (s : RedisStore)
    (hen : st.RATE_LIMIT_ENABLED = true) :
    (rate_limit_dep requests window_seconds st key now s).1.1.xRateLimitLimit =
      some (toString (RateLimiter.init st "ratelimit:" requests window_seconds).requests) ∧
    (rate_limit_dep requests window_seconds st key now s).1.1.xRateLimitRemaining =
      some (toString (max 0
        (((RateLimiter.init st "ratelimit:" requests window_seconds).requests : Int) -
         (((RateLimiter.init st "ratelimit:" requests window_seconds).is_rate_limited
            st key now s).1.2.1 : Int)))) ∧
    ((rate_limit_dep requests window_seconds st key now s).1.2 =
      if ((RateLimiter.init st "ratelimit:" requests window_seconds).is_rate_limited
            st key now s).1.1
      then some { status_code := 429, detail := "Rate limit exceeded" }
      else none) := by
  have hlimit : ∀ (rl : RateLimiter),
      (rl.is_rate_limited st key now s).1.2.2 = rl.requests := by
    intro rl
    unfold RateLimiter.is_rate_limited
    rcases h : st.RATE_LIMIT_ENABLED with _ | _
    · rfl
    · rfl
  unfold rate_limit_dep
  rw [hen]
  simp only [Bool.not_true, Bool.false_eq_true, if_false, hlimit]
  simp

/-- Witness for C9: client `"k"` already stands at 2 of 3; the check at
`t = 5` counts 3, so the request is still admitted with
`X-RateLimit-Limit: 3` and `X-RateLimit-Remaining: 0`. -/
theorem rate_limit_headers_witness :
    defaultSettings.RATE_LIMIT_ENABLED = true ∧
    ((rate_limit_dep (some 3) (some 60) defaultSettings "k" 5 sEx).1.1.xRateLimitLimit =
       some "3" ∧
     (rate_limit_dep (some 3) (some 60) defaultSettings "k" 5 sEx).1.1.xRateLimitRemaining =
       some "0" ∧
     (rate_limit_dep (some 3) (some 60) defaultSettings "k" 5 sEx).1.2 = none) := by
  have h := rate_limit_headers (some 3) (some 60) defaultSettings "k" 5 sEx (by decide)
  refine ⟨by decide, ?_, ?_, ?_⟩
  · rw [h.1]
    decide
  · rw [h.2.1]
    decide
  · rw [h.2.2]
    decide

/-! ## Cache lemmas and claim theorems -/

/-- After deleting every key matching a glob pattern, no key matching
that pattern can be found, at any time. -/
theorem find_filter_none (pat k : String) (now : Nat)
    (h : globMatch pat k = true) :
    ∀ l : List CacheEntry,
      (l.filter (fun e => !globMatch pat e.key)).find?
        (fun e => e.key == k && decide (now < e.expAt)) = none := by
  intro l
  induction l with
  | nil => rfl
  | cons e rest ih =>
    by_cases hg : globMatch pat e.key = true
    · simpa [List.filter_cons, hg] using ih
    · have hk : (e.key == k) = false := by
        apply beq_eq_false_iff_ne.mpr
        intro hkk
        exact hg (hkk ▸ h)
      simp [List.filter_cons, hg, List.find?_cons, hk, ih]

/-- Deletion via `deleteMatching` really deletes every matching key. -/
theorem get_deleteMatching (cs : CacheStore) (pat k : String) (now : Nat)
    (h : globMatch pat k = true) :
    (cs.deleteMatching pat).get k now = none := by
  unfold CacheStore.deleteMatching CacheStore.get
  rw [find_filter_none pat k now h cs.entries]

/-- A cache miss (enabled, backend ready, key absent) computes, stores
the serialized result, and returns it. -/
theorem cached_call_miss {β : Type} (st : Settings) (expire : Option Nat)
    (key : String) (ser : β → String) (deser : String → β) (c1 : β)
    (now : Nat) (cs : CacheStore)
    (hen : st.CACHE_ENABLED = true)
    (hmiss : cs.get key now = none) :
    cached_call st true expire key ser deser c1 now cs =
      (c1, 1, cs.set key (ser c1) (orDefault expire st.CACHE_EXPIRE_SECONDS) now) := by
  unfold cached_call cacheGetOrCompute
  rw [hen, hmiss]
  rfl

/-- C2: cache hit/miss semantics.  With caching enabled and the backend
ready, a call with an empty cache invokes `compute` exactly once (the
middle component counts invocations), stores its serialized result, and
returns it; a second call with the same key while the entry is still
fresh invokes `compute` zero times and returns the previously stored
(deserialized) result — even if the underlying computation would now
produce a different value `c2`. -/
theorem cache_hit_and_miss {β : Type} (st : Settings) (expire : Option Nat)
    (key : String) (ser : β → String) (deser : String → β) (c1 c2 : β)
    (now now2 : Nat)
    (hen : st.CACHE_ENABLED = true)
    (hrt : deser (ser c1) = c1)
    (hfresh : now2 < now + orDefault expire st.CACHE_EXPIRE_SECONDS) :
    (cached_call st true expire key ser deser c1 now CacheStore.empty).1 = c1 ∧
    (cached_call st true expire key ser deser c1 now CacheStore.empty).2.1 = 1 ∧
    (cached_call st true expire key ser deser c2 now2
      (cached_call st true expire key ser deser c1 now CacheStore.empty).2.2).1 = c1 ∧
    (cached_call st true expire key ser deser c2 now2
      (cached_call st true expire key ser deser c1 now CacheStore.empty).2.2).2.1 = 0 := by
  have h0 : CacheStore.empty.get key now = none := rfl
  have h1 := cached_call_miss st expire key ser deser c1 now CacheStore.empty hen h0
  have hstore :
      (CacheStore.empty.set key (ser c1) (orDefault expire st.CACHE_EXPIRE_SECONDS) now).get
        key now2 = some (ser c1) := by
    unfold CacheStore.set CacheStore.empty CacheStore.get
    simp [List.find?_cons, hfresh]
  have h2 : cached_call st true expire key ser deser c2 now2
      (CacheStore.empty.set key (ser c1) (orDefault expire st.CACHE_EXPIRE_SECONDS) now) =
      (deser (ser c1), 0,
        CacheStore.empty.set key (ser c1) (orDefault expire st.CACHE_EXPIRE_SECONDS) now) := by
    unfold cached_call cacheGetOrCompute
    rw [hen, hstore]
    rfl
  rw [h1]
  refine ⟨rfl, rfl, ?_, ?_⟩
  · show (cached_call st true expire key ser deser c2 now2
      (CacheStore.empty.set key (ser c1) (orDefault expire st.CACHE_EXPIRE_SECONDS) now)).1 = c1
    rw [h2, hrt]
  · show (cached_call st true expire key ser deser c2 now2
      (CacheStore.empty.set key (ser c1) (orDefault expire st.CACHE_EXPIRE_SECONDS) now)).2.1 = 0
    rw [h2]

/-- Witness for C2: string values under the identity serialization; the
first call computes "v1" once, the second returns the stored "v1"
without computing "v2". -/
theorem cache_hit_and_miss_witness :
    defaultSettings.CACHE_ENABLED = true ∧
    ((cached_call defaultSettings true (some 10) "fastapi-cache::items:5" id id "v1" 0
        CacheStore.empty).1 = "v1" ∧
     (cached_call defaultSettings true (some 10) "fastapi-cache::items:5" id id "v1" 0
        CacheStore.empty).2.1 = 1 ∧
     (cached_call defaultSettings true (some 10) "fastapi-cache::items:5" id id "v2" 3
        (cached_call defaultSettings true (some 10) "fastapi-cache::items:5" id id "v1" 0
          CacheStore.empty).2.2).1 = "v1" ∧
     (cached_call defaultSettings true (some 10) "fastapi-cache::items:5" id id "v2" 3
        (cached_call defaultSettings true (some 10) "fastapi-cache::items:5" id id "v1" 0
          CacheStore.empty).2.2).2.1 = 0) := by
  exact ⟨by decide,
    cache_hit_and_miss defaultSettings (some 10) "fastapi-cache::items:5" id id "v1" "v2"
      0 3 (by decide) rfl (by decide)⟩

/-- C8: cache degradation.  If caching is globally disabled (the
decorator returns the raw function) or the backend was never initialized
(the wrapper short-circuits), every call invokes `compute` directly
exactly once, returns its result, and leaves the store untouched —
whatever entries, fresh or stale, the store already holds. -/
theorem cache_disabled_computes_directly {β : Type} (st : Settings)
    (backendReady : Bool) (expire : Option Nat) (key : String)
    (ser : β → String) (deser : String → β) (c1 : β) (now : Nat) (cs : CacheStore)
    (h : st.CACHE_ENABLED = false ∨ backendReady = false) :
    cached_call st backendReady expire key ser deser c1 now cs = (c1, 1, cs) := by
  rcases h with h | h <;> simp [cached_call, h]

/-- Witness for C8, both directions: caching disabled with a live entry
for the very key, and backend not ready under the default settings —
in both cases `compute` runs and the stale entry is ignored. -/
theorem cache_disabled_computes_directly_witness :
    (cacheOffSettings.CACHE_ENABLED = false ∨ (true : Bool) = false) ∧
    cached_call cacheOffSettings true (some 10) (cacheKey fastapiCachePfx "items" "5")
      id id "fresh" 0 csEx = ("fresh", 1, csEx) := by
  exact ⟨Or.inl (by decide),
    cache_disabled_computes_directly cacheOffSettings true (some 10)
      (cacheKey fastapiCachePfx "items" "5") id id "fresh" 0 csEx (Or.inl (by decide))⟩

/-- C3: namespace invalidation evicts cached reads.  With caching
enabled and the store connected, after a cached read populated key `k`,
`clear_cache_by_pattern pattern` deletes every key matching
`prefix + ":" + pattern` — in particular `k` is gone at every later
time — so the next cached read of `k` invokes `compute` again (once)
and returns the freshly computed value rather than the stored one.
Instantiated by the witness with the `"items:*"` pattern every Item
write path passes after committing. -/
theorem invalidation_evicts {β : Type} (st : Settings) (pattern k : String)
    (cs : CacheStore) (expire : Option Nat) (ser : β → String)
    (deser : String → β) (c1 c2 : β) (now now2 now3 : Nat)
    (hen : st.CACHE_ENABLED = true)
    (hmatch : globMatch (fastapiCachePfx ++ ":" ++ pattern) k = true) :
    ((clear_cache_by_pattern st true fastapiCachePfx pattern
        (cached_call st true expire k ser deser c1 now cs).2.2).get k now2 = none) ∧
    (cached_call st true expire k ser deser c2 now3
      (clear_cache_by_pattern st true fastapiCachePfx pattern
        (cached_call st true expire k ser deser c1 now cs).2.2)).1 = c2 ∧
    (cached_call st true expire k ser deser c2 now3
      (clear_cache_by_pattern st true fastapiCachePfx pattern
        (cached_call st true expire k ser deser c1 now cs).2.2)).2.1 = 1 := by
  have hclear : ∀ (cs2 : CacheStore) (t : Nat),
      (clear_cache_by_pattern st true fastapiCachePfx pattern cs2).get k t = none := by
    intro cs2 t
    unfold clear_cache_by_pattern
    rw [hen]
    exact get_deleteMatching cs2 _ k t hmatch
  have hmiss := cached_call_miss st expire k ser deser c2 now3
    (clear_cache_by_pattern st true fastapiCachePfx pattern
      (cached_call st true expire k ser deser c1 now cs).2.2) hen
    (hclear _ now3)
  refine ⟨hclear _ now2, ?_, ?_⟩
  · rw [hmiss]
  · rw [hmiss]

/-- Witness for C3: the items write-path pattern `"items:*"` evicts the
populated key `fastapi-cache::items:5`, and the next read recomputes. -/
theorem invalidation_evicts_witness :
    defaultSettings.CACHE_ENABLED = true ∧
    globMatch (fastapiCachePfx ++ ":" ++ itemsInvalidationPattern)
      (cacheKey fastapiCachePfx "items" "5") = true ∧
    (((clear_cache_by_pattern defaultSettings true fastapiCachePfx itemsInvalidationPattern
        (cached_call defaultSettings true (some 10) (cacheKey fastapiCachePfx "items" "5")
          id id "old" 0 CacheStore.empty).2.2).get
        (cacheKey fastapiCachePfx "items" "5") 1 = none) ∧
     (cached_call defaultSettings true (some 10) (cacheKey fastapiCachePfx "items" "5")
        id id "new" 2
        (clear_cache_by_pattern defaultSettings true fastapiCachePfx itemsInvalidationPattern
          (cached_call defaultSettings true (some 10) (cacheKey fastapiCachePfx "items" "5")
            id id "old" 0 CacheStore.empty).2.2)).1 = "new" ∧
     (cached_call defaultSettings true (some 10) (cacheKey fastapiCachePfx "items" "5")
        id id "new" 2
        (clear_cache_by_pattern defaultSettings true fastapiCachePfx itemsInvalidationPattern
          (cached_call defaultSettings true (some 10) (cacheKey fastapiCachePfx "items" "5")
            id id "old" 0 CacheStore.empty).2.2)).2.1 = 1) := by
  refine ⟨by decide, by decide, ?_⟩
  exact invalidation_evicts defaultSettings itemsInvalidationPattern
    (cacheKey fastapiCachePfx "items" "5") CacheStore.empty (some 10) id id "old" "new"
    0 1 2 (by decide) (by decide)

end ApiStack
